import Mathlib

/-!
Verification of the zencontrol-tpi-node protocol engine against its
natural-language specification.

The development shallowly embeds the TypeScript sources:

* `src/zen-protocol.ts` — request/response engine (`ZenProtocol.sendPacket`,
  the command-socket message handler, `finishActiveRequest`,
  `sendBasicFrame` / `sendDynamicFrame` response decoding,
  `_handleEventPacket` event dispatch);
* `src/zen-commands.ts` (events portion) — `ZenEventMode.bitmask` / `fromByte`;
* `src/zen-address.ts` — `ZenAddress` construction and `_postInit` range checks;
* `src/zen-colour.ts` — `ZenColour.fromBytes` and `_postInit`;
* `src/zen-errors.ts` — the `ZenErrorCode` table.

JavaScript machine integers are modelled as `Nat`/`Int` with explicit bit
operations; `Buffer` values as `List Nat` of bytes; code paths that `throw`
as `Except`.  The protocol constants are those of the `ZenConst` object
(`zen-const.ts`, staged in the sources alongside the README).
-/

namespace ZenTPI

/-- `ZenConst.MAX_ECG` (`zen-const.ts`): control-gear addresses are 0-63;
exclusive bound used by `ZenAddress._postInit`. -/
def MAX_ECG : Nat := 64

/-- `ZenConst.MAX_ECD` (`zen-const.ts`): control-device addresses are 0-63;
exclusive bound used by `ZenAddress._postInit`. -/
def MAX_ECD : Nat := 64

/-- `ZenConst.MAX_GROUP` (`zen-const.ts`): group numbers are 0-15; exclusive
bound used by `ZenAddress._postInit`. -/
def MAX_GROUP : Nat := 16

/-- `ZenConst.MAX_INSTANCE` (`zen-const.ts`): instance numbers are 0-31;
exclusive bound used by `ZenInstance.validate`. -/
def MAX_INSTANCE : Nat := 32

/-- `ZenConst.MIN_KELVIN` (`zen-const.ts`): lower colour-temperature bound
used by `ZenColour._postInit`. -/
def MIN_KELVIN : Nat := 1000

/-- `ZenConst.MAX_KELVIN` (`zen-const.ts`): upper colour-temperature bound
used by `ZenColour._postInit`. -/
def MAX_KELVIN : Nat := 20000

/-- `ZenConst.MAX_SYSVAR` (`zen-const.ts`): the value is 148 (its own
comment says 0-147, and the event handler at `zen-protocol.ts` line 1498
checks `target > MAX_SYSVAR` inclusively, so targets 0-148 are accepted). -/
def MAX_SYSVAR : Nat := 148

/-- `ZenConst.DEFAULT_MAX_REQUESTS_PER_CONTROLLER` (`zen-const.ts`). -/
def DEFAULT_MAX_REQUESTS_PER_CONTROLLER : Nat := 8

/-- `ZenConst.DEFAULT_MAX_RETRIES` (`zen-const.ts`). -/
def DEFAULT_MAX_RETRIES : Nat := 5

/-- `ZenProtocol.checksum` / `ZenProtocol.checksumBuffer`
(`zen-protocol.ts` lines 164-172): XOR-fold of the bytes, masked to a byte. -/
def checksum (packet : List Nat) : Nat :=
  (packet.foldl (fun acc byte => acc ^^^ byte) 0) &&& 0xff

/-- `ZenEventMode` (events module): four flags packed into one byte,
with the multicast bit inverted. -/
structure ZenEventMode where
  enabled : Bool
  filtering : Bool
  unicast : Bool
  multicast : Bool
  deriving DecidableEq, Repr

/-- `ZenEventMode.bitmask`: sets 0x01 for enabled, 0x02 for filtering,
0x40 for unicast, and 0x80 when multicast is disabled. -/
def ZenEventMode.bitmask (m : ZenEventMode) : Nat :=
  let r : Nat := 0x00
  let r := if m.enabled then r ||| 0x01 else r
  let r := if m.filtering then r ||| 0x02 else r
  let r := if m.unicast then r ||| 0x40 else r
  let r := if !m.multicast then r ||| 0x80 else r
  r

/-- `ZenEventMode.fromByte`: reads bits 0x01, 0x02, 0x40 directly and the
0x80 bit inverted for multicast. -/
def ZenEventMode.fromByte (modeFlag : Nat) : ZenEventMode where
  enabled := modeFlag &&& 0x01 != 0
  filtering := modeFlag &&& 0x02 != 0
  unicast := modeFlag &&& 0x40 != 0
  multicast := modeFlag &&& 0x80 == 0

/-- The `ZenErrorCode` table from `zen-errors.ts`, in declaration order
(the order `Object.entries` iterates for this object literal). -/
def zenErrorCodeTable : List (String × Nat) :=
  [("CHECKSUM", 0x01),
   ("SHORT_CIRCUIT", 0x02),
   ("RECEIVE_ERROR", 0x03),
   ("UNKNOWN_CMD", 0x04),
   ("PAID_FEATURE", 0xB0),
   ("INVALID_ARGS", 0xB1),
   ("CMD_REFUSED", 0xB2),
   ("QUEUE_FAILURE", 0xB3),
   ("RESPONSE_UNAVAIL", 0xB4),
   ("OTHER_DALI_ERROR", 0xB5),
   ("MAX_LIMIT", 0xB6),
   ("UNEXPECTED_RESULT", 0xB7),
   ("UNKNOWN_TARGET", 0xB8)]

/-- The first `ZenErrorCode` entry whose value equals the byte, mirroring the
`for (const entry of Object.entries(ZenErrorCode))` scan in
`sendBasicFrame` / `sendDynamicFrame`. -/
def lookupErrorName (b : Nat) : Option String :=
  (zenErrorCodeTable.find? (fun entry => entry.2 == b)).map (fun entry => entry.1)

/-- The `returnType` argument of `ZenProtocol.sendBasicFrame`. -/
inductive RetType where
  | str | bytes | int | bool | ok | list
  deriving DecidableEq, Repr

/-- The `returnType` argument of `ZenProtocol.sendDynamicFrame`. -/
inductive DynRetType where
  | ok | bytes
  deriving DecidableEq, Repr

/-- The JavaScript value resolved by a typed frame exchange.  Strings are
kept as their UTF-8 bytes. -/
inductive JsValue where
  | vTrue
  | vFalse
  | vNull
  | vStr (bytes : List Nat)
  | vBytes (bytes : List Nat)
  | vInt (value : Nat)
  | vBool (value : Bool)
  | vList (bytes : List Nat)
  deriving DecidableEq, Repr

/-- The exceptions thrown by the typed decoders, keyed by the information
the thrown `Error` / `ZenResponseError` message carries. -/
inductive ThrownError where
  | invalidReturnType
  | invalidDataLength (len : Nat)
  | namedError (name : String)
  | unknownErrorCode (code : Nat)
  | unknownResponseCode (code : Nat)
  | noAnswerWithCode (code : Nat)
  deriving DecidableEq, Repr

/-- Response decoding of `ZenProtocol.sendBasicFrame`
(`zen-protocol.ts` lines 276-335), the `switch (response.responseCode)`
after the exchange. -/
def decodeBasicResponse (returnType : RetType) (responseCode : Nat) (data : List Nat) :
    Except ThrownError JsValue :=
  if responseCode = 0xA0 then
    if returnType = RetType.ok then .ok .vTrue else .error .invalidReturnType
  else if responseCode = 0xA1 then
    match returnType with
    | .bytes => .ok (.vBytes data)
    | .str => .ok (.vStr data)
    | .int =>
      if data.length = 1 then .ok (.vInt (data.getD 0 0))
      else .error (.invalidDataLength data.length)
    | .bool =>
      if data.length = 1 then .ok (.vBool (data.getD 0 0 != 0))
      else .error (.invalidDataLength data.length)
    | .list => .ok (.vList data)
    | .ok => .error .invalidReturnType
  else if responseCode = 0xA2 then
    if returnType = RetType.ok then .ok .vFalse else .ok .vNull
  else if responseCode = 0xA3 then
    match data with
    | [] => .ok .vNull
    | b :: _ =>
      match lookupErrorName b with
      | some name => .error (.namedError name)
      | none => .error (.unknownErrorCode b)
  else .error (.unknownResponseCode responseCode)

/-- Response decoding of `ZenProtocol.sendDynamicFrame`
(`zen-protocol.ts` lines 345-382). -/
def decodeDynamicResponse (returnType : DynRetType) (responseCode : Nat) (data : List Nat) :
    Except ThrownError JsValue :=
  if responseCode = 0xA0 then
    if returnType = DynRetType.ok then .ok .vTrue else .ok (.vBytes data)
  else if responseCode = 0xA1 then
    if returnType = DynRetType.ok then .ok .vTrue else .ok (.vBytes data)
  else if responseCode = 0xA2 then
    if returnType = DynRetType.ok then .ok .vFalse
    else
      match data with
      | [] => .ok .vNull
      | b :: _ => .error (.noAnswerWithCode b)
  else if responseCode = 0xA3 then
    match data with
    | [] => .ok .vNull
    | b :: _ =>
      match lookupErrorName b with
      | some name => .error (.namedError name)
      | none => .error (.unknownErrorCode b)
  else .error (.unknownResponseCode responseCode)

/-- The `ZenRequestPromise` entry stored in `ZenProtocol.requestsBySeq`
(`zen-protocol.ts` lines 35-40, 220-225).  The resolve/reject continuations
are represented by the caller's identity; `timerArmed` models the presence of
the `timeout` handle (set by `handleSend` once the transmit callback fires
without error). -/
structure PendingReq where
  callerId : Nat
  controllerId : Nat
  timerArmed : Bool
  deriving DecidableEq, Repr

/-- The mutable engine state of `ZenProtocol` on the command path:
`nextSeq`, the `requestsBySeq` table (a sparse array keyed by the sequence
byte), the per-controller `activeRequests` counters (`none` models a
JavaScript `undefined` entry) and the per-controller FIFO `waiting` queues of
suspended callers. -/
structure CmdEngineState where
  nextSeq : Nat
  requestsBySeq : Nat → Option PendingReq
  activeRequests : Nat → Option Int
  waiting : Nat → List Nat

/-- `ZenProtocol.finishActiveRequest` (`zen-protocol.ts` lines 142-150):
decrement the controller's active-request counter, then shift the head of its
waiting queue and resume it (returned as the woken caller).  The counter entry
is always initialised by `sendPacket` before this runs. -/
def finishActiveRequest (st : CmdEngineState) (controllerId : Nat) :
    CmdEngineState × Option Nat :=
  let count := (st.activeRequests controllerId).getD 0 - 1
  let st := { st with
    activeRequests := fun c => if c = controllerId then some count else st.activeRequests c }
  match st.waiting controllerId with
  | [] => (st, none)
  | w :: rest =>
    ({ st with waiting := fun c => if c = controllerId then rest else st.waiting c }, some w)

/-- The admission test of `sendPacket` (`zen-protocol.ts` line 182):
`activeRequests >= this.maxRequestsPerController`, evaluated on the value read
before initialisation; a JavaScript `undefined` entry compares false. -/
def admitCheck (st : CmdEngineState) (maxRequests : Int) (controllerId : Nat) : Bool :=
  match st.activeRequests controllerId with
  | none => false
  | some v => maxRequests ≤ v

/-- Lines 178-180 of `sendPacket`: initialise an absent counter entry to 0. -/
def initActive (st : CmdEngineState) (controllerId : Nat) : CmdEngineState :=
  match st.activeRequests controllerId with
  | none => { st with
      activeRequests := fun c => if c = controllerId then some 0 else st.activeRequests c }
  | some _ => st

/-- Line 192 of `sendPacket`: `this.activeRequests[controller.id]++`. -/
def incActive (st : CmdEngineState) (controllerId : Nat) : CmdEngineState :=
  { st with activeRequests := fun c =>
      if c = controllerId then some ((st.activeRequests c).getD 0 + 1) else st.activeRequests c }

/-- Lines 184-189 of `sendPacket`: enqueue the caller's resume continuation. -/
def pushWaiting (st : CmdEngineState) (controllerId caller : Nat) : CmdEngineState :=
  { st with waiting := fun c =>
      if c = controllerId then st.waiting c ++ [caller] else st.waiting c }

/-- The admission gate of `sendPacket` (`zen-protocol.ts` lines 174-192) up to
the point where the caller either proceeds (`true`: it continues synchronously
into allocation and transmission) or is parked in the FIFO queue (`false`:
the increment happens only after `finishActiveRequest` resumes it, see
`resumeAdmitted`). -/
def admitStep (st : CmdEngineState) (maxRequests : Int) (controllerId caller : Nat) :
    CmdEngineState × Bool :=
  let queued := admitCheck st maxRequests controllerId
  let st := initActive st controllerId
  if queued then (pushWaiting st controllerId caller, false)
  else (incActive st controllerId, true)

/-- The continuation of a queued caller once `finishActiveRequest` resumes it:
it re-enters just after the `await` and increments the counter without
re-checking the ceiling (`zen-protocol.ts` line 192). -/
def resumeAdmitted (st : CmdEngineState) (controllerId : Nat) : CmdEngineState :=
  incActive st controllerId

/-- Sequentially admit a list of callers to one controller, recording each
caller's admission outcome (`true` = proceeded immediately). -/
def admitMany (maxRequests : Int) (controllerId : Nat) (callers : List Nat)
    (st : CmdEngineState) : CmdEngineState × List (Nat × Bool) :=
  match callers with
  | [] => (st, [])
  | c :: rest =>
    let p := admitStep st maxRequests controllerId c
    let q := admitMany maxRequests controllerId rest p.1
    (q.1, (c, p.2) :: q.2)

/-- The candidate order of the `while (this.requestsBySeq[seq])` probe loop in
`sendPacket` (`zen-protocol.ts` lines 194-213): starting from the counter
value modulo 256, all 256 sequence numbers in wrapping order. -/
def probeList (start : Nat) : List Nat :=
  (List.range 256).map (fun i => (start + i) % 256)

/-- The sequence-number search of `sendPacket`: the first probe candidate not
occupied in `requestsBySeq`.  When every number is occupied the loop backs
off (escalating delays) and rescans; with no interleaved completion the
rescans see the identical table, and after four full wraps the code throws
`ZenTimeoutError` — modelled as `none`. -/
def allocSeq (requestsBySeq : Nat → Option PendingReq) (start : Nat) : Option Nat :=
  (probeList start).find? (fun s => (requestsBySeq s).isNone)

/-- Lines 194-225 of `sendPacket`: take `nextSeq++ % 256` as the probe start,
search for a free sequence number, and either register the new
`ZenRequestPromise` under it (line 225) or — on exhaustion — release the
admission slot via `finishActiveRequest` and throw `ZenTimeoutError`
(lines 208-210), modelled as a `none` result. -/
def sendRegisterStep (st : CmdEngineState) (callerId controllerId : Nat) :
    CmdEngineState × Option Nat :=
  let start := st.nextSeq % 256
  let st := { st with nextSeq := st.nextSeq + 1 }
  match allocSeq st.requestsBySeq start with
  | none => ((finishActiveRequest st controllerId).1, none)
  | some seq =>
    ({ st with requestsBySeq := fun s =>
        if s = seq then some ⟨callerId, controllerId, true⟩ else st.requestsBySeq s },
     some seq)

/-- `n` back-to-back `sendPacket` registrations (callers `0, 1, …`) against
one controller with no responses ever arriving, returning the final state and
each call's allocated sequence number (`none` = sequence-space timeout). -/
def runSends (st : CmdEngineState) : Nat → CmdEngineState × List (Option Nat)
  | 0 => (st, [])
  | n + 1 =>
    let p := runSends st n
    let q := sendRegisterStep p.1 n 0
    (q.1, p.2 ++ [q.2])

/-- The empty engine state at construction time. -/
def emptyEngine : CmdEngineState :=
  { nextSeq := 0
    requestsBySeq := fun _ => none
    activeRequests := fun _ => none
    waiting := fun _ => [] }

/-- Why an inbound command-path datagram was rejected to its caller
(a `ZenResponseError` in both cases). -/
inductive RejectReason where
  | invalidChecksum
  | lengthMismatch
  deriving DecidableEq, Repr

/-- Observable outcome of the command-socket message handler. -/
inductive MsgResult where
  | tooShort
  | unknownSeq
  | rejected (callerId : Nat) (reason : RejectReason)
  | resolved (callerId : Nat) (responseCode : Nat) (data : List Nat)
  deriving DecidableEq, Repr

/-- Full effect of one inbound command-path datagram: the new engine state,
the caller-visible result, whether `clearTimeout` ran on the matched
request's timer, and the waiting caller woken by `finishActiveRequest`. -/
structure HandleOut where
  state : CmdEngineState
  result : MsgResult
  timerCleared : Bool
  wokenWaiter : Option Nat

/-- The `commandSocket.on('message', …)` handler
(`zen-protocol.ts` lines 95-139): drop messages shorter than 4 bytes; drop
messages whose sequence byte matches no pending request; otherwise remove the
entry, cancel its timer, release the admission slot, then reject on checksum
mismatch or on `4 + dataLength ≠ length`, else resolve with the data bytes. -/
def handleMessage (st : CmdEngineState) (msg : List Nat) : HandleOut :=
  if msg.length < 4 then ⟨st, .tooShort, false, none⟩
  else
    let responseCode := msg.getD 0 0
    let seq := msg.getD 1 0
    let dataLength := msg.getD 2 0
    match st.requestsBySeq seq with
    | none => ⟨st, .unknownSeq, false, none⟩
    | some request =>
      let st := { st with requestsBySeq := fun s => if s = seq then none else st.requestsBySeq s }
      let timerCleared := request.timerArmed
      let fin := finishActiveRequest st request.controllerId
      let st := fin.1
      let responseChecksum := msg.getD (msg.length - 1) 0
      let expectedChecksum := checksum (msg.take (msg.length - 1))
      if responseChecksum ≠ expectedChecksum then
        ⟨st, .rejected request.callerId .invalidChecksum, timerCleared, fin.2⟩
      else if msg.length ≠ 4 + dataLength then
        ⟨st, .rejected request.callerId .lengthMismatch, timerCleared, fin.2⟩
      else if dataLength ≠ 0 then
        ⟨st, .resolved request.callerId responseCode ((msg.drop 3).take (msg.length - 4)),
         timerCleared, fin.2⟩
      else
        ⟨st, .resolved request.callerId responseCode [], timerCleared, fin.2⟩

/-- The per-request retry/timeout context of one in-flight request: the
shared engine state plus the `seq`, `packet`, `retries` closure variables of
`sendPacket` and its `timeout` callback, the log of transmitted frames, and
whether the caller has been rejected with `ZenTimeoutError`. -/
structure RetryCtx where
  engine : CmdEngineState
  seq : Nat
  controllerId : Nat
  packet : List Nat
  retries : Nat
  sent : List (List Nat)
  timerArmed : Bool
  rejectedTimeout : Bool

/-- The `timeout` closure of `sendPacket` (`zen-protocol.ts` lines 237-249):
increment `retries`; if the retry ceiling is reached, delete the tracker
entry, release the admission slot and reject with `ZenTimeoutError`;
otherwise retransmit the identical `packet` (whose successful send callback
`handleSend` rearms the timer). -/
def timeoutExpire (maxRetries : Nat) (ctx : RetryCtx) : RetryCtx :=
  let retries := ctx.retries + 1
  if maxRetries ≤ retries then
    let engine := { ctx.engine with requestsBySeq := fun s =>
      if s = ctx.seq then none else ctx.engine.requestsBySeq s }
    { ctx with
      retries
      engine := (finishActiveRequest engine ctx.controllerId).1
      timerArmed := false
      rejectedTimeout := true }
  else
    { ctx with retries, sent := ctx.sent ++ [ctx.packet], timerArmed := true }

/-- `n` successive response-timer expiries with no response in between. -/
def iterExpire (maxRetries : Nat) (ctx : RetryCtx) : Nat → RetryCtx
  | 0 => ctx
  | n + 1 => timeoutExpire maxRetries (iterExpire maxRetries ctx n)

/-- The retry context of a single request immediately after its first
successful transmission (`zen-protocol.ts` lines 215-255 with `err = null`):
registered under `seq`, counted against its controller (`active` in-flight
requests), frame transmitted once, timer armed. -/
def freshRetryCtx (seq controllerId : Nat) (packet : List Nat) (active : Int) : RetryCtx :=
  { engine :=
      { nextSeq := seq + 1
        requestsBySeq := fun s => if s = seq then some ⟨0, controllerId, true⟩ else none
        activeRequests := fun c => if c = controllerId then some active else none
        waiting := fun _ => [] }
    seq
    controllerId
    packet
    retries := 0
    sent := [packet]
    timerArmed := true
    rejectedTimeout := false }

/-- `ZenAddressType` from `zen-address.ts`. -/
inductive ZenAddressType where
  | BROADCAST | ECG | ECD | GROUP
  deriving DecidableEq, Repr

/-- The exceptions thrown on the event path (constructor validation in
`zen-address.ts`, `zen-instance.ts`, `zen-colour.ts`), keyed by the
information the thrown `Error` message carries. -/
inductive JsThrow where
  | addressRange (ty : ZenAddressType) (target : Int)
  | instanceRange (number : Nat)
  | colourNoBytes
  | colourUnsupportedType (ty : Nat)
  | kelvinRange (kelvin : Nat)
  | rgbwafRange
  | xyRange
  deriving DecidableEq, Repr

/-- `ZenController` from `zen-controller.ts`.  The MAC address is modelled as
its 6 bytes (the source stores a string; `_findController` compares it
case-insensitively with separators stripped, which for well-formed MAC
strings is byte equality). -/
structure ZenController where
  host : String
  port : Nat
  id : Nat
  macAddress : Option (List Nat)
  deriving DecidableEq, Repr

/-- `ZenAddress` from `zen-address.ts`: owning controller (by id), variant
tag and numeric target. -/
structure ZenAddress where
  controllerId : Nat
  type : ZenAddressType
  target : Int
  deriving DecidableEq, Repr

/-- The `ZenAddress` constructor including `_postInit`
(`zen-address.ts` lines 19-24, 98-119): broadcast forces target 255; the
other variants throw when the target is outside their range (`MAX_ECG`,
`MAX_ECD`, `MAX_GROUP` exclusive upper bounds). -/
def ZenAddress.make (controllerId : Nat) (ty : ZenAddressType) (target : Int) :
    Except JsThrow ZenAddress :=
  match ty with
  | .BROADCAST => .ok ⟨controllerId, ty, 255⟩
  | .ECG =>
    if target < 0 ∨ (MAX_ECG : Int) ≤ target then .error (.addressRange ty target)
    else .ok ⟨controllerId, ty, target⟩
  | .ECD =>
    if target < 0 ∨ (MAX_ECD : Int) ≤ target then .error (.addressRange ty target)
    else .ok ⟨controllerId, ty, target⟩
  | .GROUP =>
    if target < 0 ∨ (MAX_GROUP : Int) ≤ target then .error (.addressRange ty target)
    else .ok ⟨controllerId, ty, target⟩

/-- `ZenInstanceType` from `zen-instance.ts`. -/
inductive ZenInstanceType where
  | PUSH_BUTTON | ABSOLUTE_INPUT | OCCUPANCY_SENSOR | LIGHT_SENSOR | GENERAL_SENSOR
  deriving DecidableEq, Repr

/-- `ZenInstance` from `zen-instance.ts`.  The instance-number field is named
`instance` in the source, a Lean keyword. -/
structure ZenInstance where
  address : ZenAddress
  type : ZenInstanceType
  number : Nat
  deriving DecidableEq, Repr

/-- The `ZenInstance` constructor including `validate`
(`zen-instance.ts`): throws when the instance number is outside
`0 ≤ n < MAX_INSTANCE`. -/
def ZenInstance.make (address : ZenAddress) (ty : ZenInstanceType) (number : Nat) :
    Except JsThrow ZenInstance :=
  if MAX_INSTANCE ≤ number then .error (.instanceRange number)
  else .ok ⟨address, ty, number⟩

/-- `ZenColourType` from `zen-colour.ts`: XY 0x10, TC 0x20, RGBWAF 0x80. -/
inductive ZenColourType where
  | XY | TC | RGBWAF
  deriving DecidableEq, Repr

/-- `ZenColour` from `zen-colour.ts`: a tagged value whose active variant's
fields are populated. -/
structure ZenColour where
  type : ZenColourType
  kelvin : Option Nat := none
  r : Option Nat := none
  g : Option Nat := none
  b : Option Nat := none
  w : Option Nat := none
  a : Option Nat := none
  f : Option Nat := none
  x : Option Nat := none
  y : Option Nat := none
  deriving DecidableEq, Repr

/-- `ZenColour.fromBytes` (`zen-colour.ts` lines 119-149) combined with the
constructor's `_postInit` validation (lines 184-203): empty input throws;
RGBWAF requires 7 bytes and channels 0-255; TC requires 3 or 7 bytes and a
Kelvin value within `MIN_KELVIN`-`MAX_KELVIN`; XY requires 5 or 7 bytes and
coordinates 0-65535; any other type byte (or a length mismatch, which falls
through the switch) throws the unsupported-type error. -/
def ZenColour.fromBytes (bytes : List Nat) : Except JsThrow ZenColour :=
  if bytes.length = 0 then .error .colourNoBytes
  else
    let ty := bytes.getD 0 0
    if ty = 0x80 ∧ bytes.length = 7 then
      let r := bytes.getD 1 0
      let g := bytes.getD 2 0
      let b := bytes.getD 3 0
      let w := bytes.getD 4 0
      let a := bytes.getD 5 0
      let f := bytes.getD 6 0
      if 255 < r ∨ 255 < g ∨ 255 < b ∨ 255 < w ∨ 255 < a ∨ 255 < f then
        .error .rgbwafRange
      else
        .ok { type := .RGBWAF, r := some r, g := some g, b := some b,
              w := some w, a := some a, f := some f }
    else if ty = 0x20 ∧ (bytes.length = 3 ∨ bytes.length = 7) then
      let kelvin := (bytes.getD 1 0 <<< 8) ||| bytes.getD 2 0
      if kelvin < MIN_KELVIN ∨ MAX_KELVIN < kelvin then .error (.kelvinRange kelvin)
      else .ok { type := .TC, kelvin := some kelvin }
    else if ty = 0x10 ∧ (bytes.length = 5 ∨ bytes.length = 7) then
      let x := (bytes.getD 1 0 <<< 8) ||| bytes.getD 2 0
      let y := (bytes.getD 3 0 <<< 8) ||| bytes.getD 4 0
      if 65535 < x ∨ 65535 < y then .error .xyRange
      else .ok { type := .XY, x := some x, y := some y }
    else .error (.colourUnsupportedType ty)

/-- Which of the public callback slots of `ZenProtocol` have been assigned
(each dispatch arm runs only `if` its callback is set). -/
structure EventCallbacks where
  buttonPress : Bool
  buttonHold : Bool
  absoluteInput : Bool
  levelChange : Bool
  groupLevelChange : Bool
  sceneChange : Bool
  occupancy : Bool
  systemVariableChange : Bool
  colourChange : Bool
  profileChange : Bool
  deriving DecidableEq, Repr

/-- `EventCallbacks` with every slot assigned. -/
def allCallbacks : EventCallbacks :=
  ⟨true, true, true, true, true, true, true, true, true, true⟩

/-- Why `_handleEventPacket` logged and dropped a datagram. -/
inductive EventDrop where
  | tooShort
  | badMagic
  | badChecksum
  | noController
  | invalidSceneTarget
  | invalidSysVarTarget
  | unknownEventCode
  deriving DecidableEq, Repr

/-- Observable outcome of `_handleEventPacket` when no exception escapes:
either a drop (with a warning), a silent no-op, or one typed callback
invocation with its decoded arguments. -/
inductive EventAction where
  | noAction
  | dropped (reason : EventDrop)
  | buttonPress (inst : ZenInstance)
  | buttonHold (inst : ZenInstance)
  | absoluteInput (inst : ZenInstance) (value : Nat)
  | levelChange (addr : ZenAddress) (arcLevel : Nat)
  | groupLevelChange (addr : ZenAddress) (arcLevel : Nat)
  | sceneChange (addr : ZenAddress) (scene : Nat)
  | occupancy (inst : ZenInstance)
  | systemVariableChange (controllerId : Nat) (target : Nat) (value : Int)
  | colourChange (addr : ZenAddress) (colour : ZenColour)
  | profileChange (controllerId : Nat) (profile : Nat)
  deriving DecidableEq, Repr

/-- `ZenProtocol._findController` (`zen-protocol.ts` lines 1538-1540): the
first configured controller whose MAC address matches the decoded one
(string comparison normalised to byte equality; a controller without a MAC
never matches). -/
def findController (controllers : List ZenController) (mac : List Nat) :
    Option ZenController :=
  controllers.find? (fun c =>
    match c.macAddress with
    | some m => m == mac
    | none => false)

/-- Big-endian combination of two bytes as in
`(packet[8] & 0xff) << 8 | packet[9] & 0xff` (`zen-protocol.ts` line 1422). -/
def beWord (hi lo : Nat) : Nat :=
  ((hi &&& 0xff) <<< 8) ||| (lo &&& 0xff)

/-- `ZenProtocol._handleEventPacket` (`zen-protocol.ts` lines 1409-1536).
Byte reads use `getD _ 0`, faithful for datagrams carrying the full 12-byte
header (the concrete packets the claims are settled on).  A declared-length
mismatch only warns (line 1428-1430) and is not a branch.  Exceptions thrown
by the `ZenAddress` / `ZenInstance` / `ZenColour` constructors propagate out
of the handler — there is no try/catch — which the `Except` error case
models. -/
def handleEventPacket (cbs : EventCallbacks) (controllers : List ZenController)
    (packet : List Nat) : Except JsThrow EventAction :=
  if packet.length < 2 then .ok (.dropped .tooShort)
  else if ¬(packet.getD 0 0 = 0x5a ∧ packet.getD 1 0 = 0x43) then .ok (.dropped .badMagic)
  else
    let macBytes := (packet.drop 2).take 6
    let target := beWord (packet.getD 8 0) (packet.getD 9 0)
    let eventCode := packet.getD 10 0
    let payload := (packet.drop 12).take (packet.length - 1 - 12)
    let receivedChecksum := packet.getD (packet.length - 1) 0
    if checksum (packet.take (packet.length - 1)) ≠ receivedChecksum then
      .ok (.dropped .badChecksum)
    else
      match findController controllers macBytes with
      | none => .ok (.dropped .noController)
      | some controller =>
        if eventCode = 0x00 then
          -- BUTTON_PRESS_EVENT
          if cbs.buttonPress then do
            let addr ← ZenAddress.make controller.id .ECD ((target : Int) - 64)
            let inst ← ZenInstance.make addr .PUSH_BUTTON (payload.getD 0 0)
            .ok (.buttonPress inst)
          else .ok .noAction
        else if eventCode = 0x01 then
          -- BUTTON_HOLD_EVENT
          if cbs.buttonHold then do
            let addr ← ZenAddress.make controller.id .ECD ((target : Int) - 64)
            let inst ← ZenInstance.make addr .PUSH_BUTTON (payload.getD 0 0)
            .ok (.buttonHold inst)
          else .ok .noAction
        else if eventCode = 0x02 then
          -- ABSOLUTE_INPUT_EVENT; the source computes
          -- `(payload[1] & 0xff << 8) | (payload[2] & 0xff)`, which JavaScript
          -- operator precedence parses as `payload[1] & (0xff << 8)`.
          if cbs.absoluteInput then do
            let value := (payload.getD 1 0 &&& (0xff <<< 8)) ||| (payload.getD 2 0 &&& 0xff)
            let addr ← ZenAddress.make controller.id .ECD ((target : Int) - 64)
            let inst ← ZenInstance.make addr .PUSH_BUTTON (payload.getD 0 0)
            .ok (.absoluteInput inst value)
          else .ok .noAction
        else if eventCode = 0x03 then
          -- LEVEL_CHANGE_EVENT
          if cbs.levelChange then do
            let addr ← ZenAddress.make controller.id .ECG (target : Int)
            .ok (.levelChange addr (payload.getD 0 0))
          else .ok .noAction
        else if eventCode = 0x04 then
          -- GROUP_LEVEL_CHANGE_EVENT
          if cbs.groupLevelChange then do
            let addr ← ZenAddress.make controller.id .GROUP (target : Int)
            .ok (.groupLevelChange addr (payload.getD 0 0))
          else .ok .noAction
        else if eventCode = 0x05 then
          -- SCENE_CHANGE_EVENT
          if cbs.sceneChange then
            if target ≤ 63 then do
              let addr ← ZenAddress.make controller.id .ECG (target : Int)
              .ok (.sceneChange addr (payload.getD 0 0))
            else if 64 ≤ target ∧ target ≤ 79 then do
              let addr ← ZenAddress.make controller.id .GROUP ((target : Int) - 64)
              .ok (.sceneChange addr (payload.getD 0 0))
            else .ok (.dropped .invalidSceneTarget)
          else .ok .noAction
        else if eventCode = 0x06 then
          -- OCCUPANCY_EVENT
          if cbs.occupancy then do
            let addr ← ZenAddress.make controller.id .ECD ((target : Int) - 64)
            let inst ← ZenInstance.make addr .OCCUPANCY_SENSOR (payload.getD 0 0)
            .ok (.occupancy inst)
          else .ok .noAction
        else if eventCode = 0x07 then
          -- SYSTEM_VARIABLE_CHANGED_EVENT; the mantissa is a signed 32-bit
          -- value (JavaScript bitwise operators yield Int32), the exponent a
          -- power of ten.  Math.pow(10, magnitude) is modelled as the exact
          -- integer power; the JavaScript double rounds once magnitude
          -- reaches 23, so the modelled value is exact only below that.
          if cbs.systemVariableChange then
            if MAX_SYSVAR < target then .ok (.dropped .invalidSysVarTarget)
            else
              let u := ((payload.getD 0 0 &&& 0xff) <<< 24) |||
                       ((payload.getD 1 0 &&& 0xff) <<< 16) |||
                       ((payload.getD 2 0 &&& 0xff) <<< 8) |||
                       (payload.getD 3 0 &&& 0xff)
              let rawValue : Int := if u < 2 ^ 31 then (u : Int) else (u : Int) - 2 ^ 32
              let magnitude := payload.getD 4 0 &&& 0xff
              .ok (.systemVariableChange controller.id target (rawValue * 10 ^ magnitude))
          else .ok .noAction
        else if eventCode = 0x08 then
          -- COLOUR_CHANGED_EVENT (`zen-protocol.ts` lines 1508-1524): the
          -- 127-143 arm constructs `new ZenAddress(controller, GROUP, target)`
          -- with the raw target, before the warning and the callback.
          if cbs.colourChange then do
            let colour ← ZenColour.fromBytes payload
            if target < 64 then do
              let addr ← ZenAddress.make controller.id .ECG (target : Int)
              .ok (.colourChange addr colour)
            else if 64 ≤ target ∧ target ≤ 79 then do
              let addr ← ZenAddress.make controller.id .GROUP ((target : Int) - 64)
              .ok (.colourChange addr colour)
            else if 127 ≤ target ∧ target ≤ 143 then do
              let addr ← ZenAddress.make controller.id .GROUP (target : Int)
              .ok (.colourChange addr colour)
            else .ok .noAction
          else .ok .noAction
        else if eventCode = 0x09 then
          -- PROFILE_CHANGED_EVENT
          if cbs.profileChange then
            .ok (.profileChange controller.id (beWord (payload.getD 0 0) (payload.getD 1 0)))
          else .ok .noAction
        else .ok (.dropped .unknownEventCode)

/-- Convenience for concrete event datagrams: append the XOR checksum. -/
def mkEventPacket (body : List Nat) : List Nat :=
  body ++ [checksum body]

section Lemmas

/-- `finishActiveRequest` never touches the pending-request table. -/
theorem finishActiveRequest_requestsBySeq (st : CmdEngineState) (controllerId : Nat) :
    ((finishActiveRequest st controllerId).1).requestsBySeq = st.requestsBySeq := by
  cases h : st.waiting controllerId <;> simp [finishActiveRequest, h]

/-- `finishActiveRequest` decrements the controller's counter. -/
theorem finishActiveRequest_active (st : CmdEngineState) (controllerId : Nat) :
    ((finishActiveRequest st controllerId).1).activeRequests controllerId
      = some ((st.activeRequests controllerId).getD 0 - 1) := by
  cases h : st.waiting controllerId <;> simp [finishActiveRequest, h]

/-- `finishActiveRequest` never touches the sequence counter. -/
theorem finishActiveRequest_nextSeq (st : CmdEngineState) (controllerId : Nat) :
    ((finishActiveRequest st controllerId).1).nextSeq = st.nextSeq := by
  cases h : st.waiting controllerId <;> simp [finishActiveRequest, h]

/-- When the probe's starting number is free, the allocator returns it. -/
theorem allocSeq_head (tbl : Nat → Option PendingReq) (start : Nat)
    (h : tbl (start % 256) = none) :
    allocSeq tbl start = some (start % 256) := by
  simp [allocSeq, probeList, List.range_succ_eq_map, List.find?, h]

/-- Whatever the allocator returns was a free sequence number below 256. -/
theorem allocSeq_free (tbl : Nat → Option PendingReq) (start s : Nat)
    (h : allocSeq tbl start = some s) :
    tbl s = none ∧ s < 256 := by
  constructor
  · have := List.find?_some h
    simpa [Option.isNone_iff_eq_none] using this
  · have hm := List.mem_of_find?_eq_some h
    simp only [probeList, List.mem_map, List.mem_range] at hm
    obtain ⟨i, -, rfl⟩ := hm
    exact Nat.mod_lt _ (by omega)

/-- With every sequence number occupied the allocator fails. -/
theorem allocSeq_full (tbl : Nat → Option PendingReq) (start : Nat)
    (h : ∀ s, s < 256 → (tbl s).isSome) :
    allocSeq tbl start = none := by
  rw [allocSeq, List.find?_eq_none]
  intro x hx
  simp only [probeList, List.mem_map, List.mem_range] at hx
  obtain ⟨i, -, rfl⟩ := hx
  have := h _ (Nat.mod_lt (start + i) (show 0 < 256 by omega))
  simp [Option.isNone_iff_eq_none]
  intro hnone
  rw [hnone] at this
  cases this

/-- A failed allocation (sequence space exhausted) leaves the table
untouched, still advances the sequence counter, and reports no number. -/
theorem sendRegisterStep_fail (st : CmdEngineState) (callerId controllerId : Nat)
    (h : allocSeq st.requestsBySeq (st.nextSeq % 256) = none) :
    (sendRegisterStep st callerId controllerId).1.requestsBySeq = st.requestsBySeq
    ∧ (sendRegisterStep st callerId controllerId).1.nextSeq = st.nextSeq + 1
    ∧ (sendRegisterStep st callerId controllerId).2 = none := by
  refine ⟨?_, ?_, ?_⟩ <;> simp only [sendRegisterStep, h]
  · rw [finishActiveRequest_requestsBySeq]
  · rw [finishActiveRequest_nextSeq]

end Lemmas

section SeqScenario

/-- State invariant of the 300-request scenario while sequence numbers
remain: after `n ≤ 256` back-to-back registrations the counter is `n`, the
table holds exactly the requests `0..n-1` under their own numbers, and every
call so far was allocated its index. -/
theorem runSends_phase1 (n : Nat) (hn : n ≤ 256) :
    (runSends emptyEngine n).1.nextSeq = n
    ∧ (∀ s, (runSends emptyEngine n).1.requestsBySeq s
        = if s < n then some ⟨s, 0, true⟩ else none)
    ∧ (runSends emptyEngine n).2 = (List.range n).map some := by
  induction n with
  | zero => exact ⟨rfl, fun s => by simp [emptyEngine, runSends], rfl⟩
  | succ n ih =>
    obtain ⟨ihSeq, ihTbl, ihRes⟩ := ih (by omega)
    have hmod : n % 256 = n := Nat.mod_eq_of_lt (by omega)
    have hstart : (runSends emptyEngine n).1.nextSeq % 256 = n := by
      rw [ihSeq]; exact hmod
    have hfree : (runSends emptyEngine n).1.requestsBySeq n = none := by
      rw [ihTbl]; simp
    have halloc :
        allocSeq (runSends emptyEngine n).1.requestsBySeq
          ((runSends emptyEngine n).1.nextSeq % 256) = some n := by
      rw [hstart]
      have h2 := allocSeq_head (runSends emptyEngine n).1.requestsBySeq n
        (by rw [hmod]; exact hfree)
      rwa [hmod] at h2
    refine ⟨?_, ?_, ?_⟩
    · show (sendRegisterStep (runSends emptyEngine n).1 n 0).1.nextSeq = n + 1
      simp only [sendRegisterStep, halloc]
      rw [ihSeq]
    · intro s
      show (sendRegisterStep (runSends emptyEngine n).1 n 0).1.requestsBySeq s = _
      simp only [sendRegisterStep, halloc]
      by_cases hs : s = n
      · subst hs
        simp
      · simp only [hs, if_false]
        rw [ihTbl]
        rcases Nat.lt_trichotomy s n with h | h | h
        · rw [if_pos h, if_pos (by omega)]
        · omega
        · rw [if_neg (by omega), if_neg (by omega)]
    · show (runSends emptyEngine n).2
          ++ [(sendRegisterStep (runSends emptyEngine n).1 n 0).2] = _
      simp only [sendRegisterStep, halloc]
      rw [ihRes, List.range_succ]
      simp

/-- State invariant of the 300-request scenario once the space is exhausted:
every registration past the 256th fails with the sequence-space timeout and
the table still holds exactly the first 256 requests. -/
theorem runSends_phase2 (m : Nat) :
    (runSends emptyEngine (256 + m)).1.nextSeq = 256 + m
    ∧ (∀ s, (runSends emptyEngine (256 + m)).1.requestsBySeq s
        = if s < 256 then some ⟨s, 0, true⟩ else none)
    ∧ (runSends emptyEngine (256 + m)).2
        = (List.range 256).map some ++ List.replicate m none := by
  induction m with
  | zero =>
    rw [Nat.add_zero]
    obtain ⟨h1, h2, h3⟩ := runSends_phase1 256 le_rfl
    refine ⟨h1, h2, ?_⟩
    rw [List.replicate_zero, List.append_nil]
    exact h3
  | succ m ih =>
    obtain ⟨ihSeq, ihTbl, ihRes⟩ := ih
    have hfull :
        allocSeq (runSends emptyEngine (256 + m)).1.requestsBySeq
          ((runSends emptyEngine (256 + m)).1.nextSeq % 256) = none := by
      apply allocSeq_full
      intro s hs
      rw [ihTbl, if_pos hs]
      rfl
    have hstep : runSends emptyEngine (256 + (m + 1))
        = (let p := runSends emptyEngine (256 + m);
           let q := sendRegisterStep p.1 (256 + m) 0;
           (q.1, p.2 ++ [q.2])) := rfl
    refine ⟨?_, ?_, ?_⟩
    · rw [hstep]
      simp only [sendRegisterStep, hfull]
      rw [finishActiveRequest_nextSeq]
      simpa using congrArg (· + 1) ihSeq
    · intro s
      rw [hstep]
      simp only [sendRegisterStep, hfull]
      rw [show (((finishActiveRequest
            { runSends emptyEngine (256 + m) |>.1 with
              nextSeq := (runSends emptyEngine (256 + m)).1.nextSeq + 1 } 0).1).requestsBySeq)
          = (runSends emptyEngine (256 + m)).1.requestsBySeq from
            finishActiveRequest_requestsBySeq _ 0]
      exact ihTbl s
    · rw [hstep]
      simp only [sendRegisterStep, hfull]
      rw [ihRes, List.replicate_succ']
      simp

end SeqScenario

/-- Claim C1: `sendPacket` never registers a new request under a sequence
number that is currently mapped to a pending request of any controller (the
allocator only ever returns a free slot of the shared global table); and in
the 300-back-to-back-requests scenario with no responses ever arriving, the
calls are allocated the 256 pairwise-distinct numbers 0..255 and the
remaining 44 calls fail with the sequence-space timeout instead of ever
reusing a pending number. -/
theorem sendPacket_seq_unique :
    (∀ (st : CmdEngineState) (callerId controllerId seq : Nat),
        (sendRegisterStep st callerId controllerId).2 = some seq →
        st.requestsBySeq seq = none)
    ∧ (runSends emptyEngine 300).2
        = (List.range 256).map some ++ List.replicate 44 none := by
  constructor
  · intro st callerId controllerId seq h
    unfold sendRegisterStep at h
    rcases halloc : allocSeq st.requestsBySeq (st.nextSeq % 256) with _ | s
    · simp only [halloc] at h
      cases h
    · simp only [halloc] at h
      cases h
      exact (allocSeq_free _ _ _ halloc).1
  · exact (runSends_phase2 44).2.2

/-- Witness for claim C1: the very first registration of a fresh engine is
placed under sequence number 0, which was indeed free. -/
theorem sendPacket_seq_unique_witness :
    emptyEngine.requestsBySeq 0 = none :=
  sendPacket_seq_unique.1 emptyEngine 0 0 0 rfl

section AdmissionScenario

/-- While the counter stays below the ceiling every caller proceeds
immediately: sequentially admitting `callers` to a controller whose counter
is initialised at `k` with `k + callers.length ≤ C` admits every one of
them, raises the counter accordingly, and leaves the queue — and every other
controller's counter and queue — untouched. -/
theorem admitMany_all_proceed (callers : List Nat) (C : Int) (controllerId : Nat)
    (st : CmdEngineState) (k : Int)
    (hk : st.activeRequests controllerId = some k)
    (hC : k + callers.length ≤ C) :
    (admitMany C controllerId callers st).2 = callers.map (fun c => (c, true))
    ∧ (admitMany C controllerId callers st).1.activeRequests controllerId
        = some (k + callers.length)
    ∧ (admitMany C controllerId callers st).1.waiting controllerId
        = st.waiting controllerId
    ∧ (∀ cid2, cid2 ≠ controllerId →
        (admitMany C controllerId callers st).1.activeRequests cid2
          = st.activeRequests cid2
        ∧ (admitMany C controllerId callers st).1.waiting cid2 = st.waiting cid2) := by
  induction callers generalizing st k with
  | nil =>
    refine ⟨rfl, ?_, rfl, fun cid2 _ => ⟨rfl, rfl⟩⟩
    simp [admitMany, hk]
  | cons c rest ih =>
    have hklt : ¬ C ≤ k := by
      have h0 : (0 : Int) ≤ (rest.length : Int) := by positivity
      simp only [List.length_cons] at hC
      push_cast at hC
      omega
    have hcheck : admitCheck st C controllerId = false := by
      simp [admitCheck, hk, hklt]
    have hstep : admitStep st C controllerId c
        = (incActive (initActive st controllerId) controllerId, true) := by
      simp [admitStep, hcheck]
    have hinit : initActive st controllerId = st := by
      simp [initActive, hk]
    have hactive : (incActive st controllerId).activeRequests controllerId
        = some (k + 1) := by
      simp [incActive, hk]
    have hwaitinc : ∀ cid2, (incActive st controllerId).waiting cid2 = st.waiting cid2 :=
      fun cid2 => rfl
    have hotherinc : ∀ cid2, cid2 ≠ controllerId →
        (incActive st controllerId).activeRequests cid2 = st.activeRequests cid2 := by
      intro cid2 hne
      simp [incActive, hne]
    obtain ⟨ihRes, ihAct, ihWait, ihOther⟩ :=
      ih (incActive st controllerId) (k + 1) hactive
        (by simp only [List.length_cons] at hC; push_cast at hC ⊢; omega)
    have hunfold : admitMany C controllerId (c :: rest) st
        = ((admitMany C controllerId rest (incActive st controllerId)).1,
           (c, true) :: (admitMany C controllerId rest (incActive st controllerId)).2) := by
      rw [admitMany, hstep, hinit]
    refine ⟨?_, ?_, ?_, ?_⟩
    · rw [hunfold]
      simp [ihRes]
    · rw [hunfold]
      simp only []
      rw [ihAct]
      congr 1
      simp only [List.length_cons]
      push_cast
      ring
    · rw [hunfold]
      simp only []
      rw [ihWait, hwaitinc]
    · intro cid2 hne
      rw [hunfold]
      refine ⟨?_, ?_⟩
      · simp only []
        rw [(ihOther cid2 hne).1, hotherinc cid2 hne]
      · simp only []
        rw [(ihOther cid2 hne).2, hwaitinc]

end AdmissionScenario

/-- `finishActiveRequest` on a non-empty queue pops exactly the FIFO head,
resuming it, and decrements the counter. -/
theorem finishActiveRequest_pop (st : CmdEngineState) (controllerId w : Nat)
    (rest : List Nat) (h : st.waiting controllerId = w :: rest) :
    (finishActiveRequest st controllerId).2 = some w
    ∧ (finishActiveRequest st controllerId).1.waiting controllerId = rest
    ∧ (finishActiveRequest st controllerId).1.activeRequests controllerId
        = some ((st.activeRequests controllerId).getD 0 - 1) := by
  simp [finishActiveRequest, h]

/-- Sequential admission distributes over list append. -/
theorem admitMany_append (C : Int) (controllerId : Nat) (l1 l2 : List Nat)
    (st : CmdEngineState) :
    admitMany C controllerId (l1 ++ l2) st
      = ((admitMany C controllerId l2 (admitMany C controllerId l1 st).1).1,
         (admitMany C controllerId l1 st).2
           ++ (admitMany C controllerId l2 (admitMany C controllerId l1 st).1).2) := by
  induction l1 generalizing st with
  | nil => simp [admitMany]
  | cons c rest ih => simp [admitMany, ih]

/-- The unconditional counter increment at line 192 of `sendPacket`. -/
theorem incActive_self (st : CmdEngineState) (controllerId : Nat) :
    (incActive st controllerId).activeRequests controllerId
      = some ((st.activeRequests controllerId).getD 0 + 1) := by
  simp [incActive]

/-- Claim C3: with per-controller ceiling `C > 0`, issuing `C+1` back-to-back
`sendPacket` calls to one controller admits (and hence transmits) exactly the
first `C` immediately and parks the `(C+1)`th in the FIFO queue with the
counter at the ceiling; the release performed when one of the first `C`
completes resumes exactly that queued caller, whose continuation increments
the counter back to the ceiling without re-checking it; in general
`finishActiveRequest` resumes exactly the head of the FIFO queue; and the
whole scenario leaves every other controller's counter and queue untouched. -/
theorem admission_ceiling_fifo (C : Nat) (hC : 0 < C) (controllerId : Nat) :
    (admitMany (C : Int) controllerId (List.range (C + 1)) emptyEngine).2
        = (List.range C).map (fun c => (c, true)) ++ [(C, false)]
    ∧ (admitMany (C : Int) controllerId (List.range (C + 1)) emptyEngine).1.activeRequests
        controllerId = some (C : Int)
    ∧ (admitMany (C : Int) controllerId (List.range (C + 1)) emptyEngine).1.waiting
        controllerId = [C]
    ∧ (finishActiveRequest
        (admitMany (C : Int) controllerId (List.range (C + 1)) emptyEngine).1
        controllerId).2 = some C
    ∧ (finishActiveRequest
        (admitMany (C : Int) controllerId (List.range (C + 1)) emptyEngine).1
        controllerId).1.waiting controllerId = []
    ∧ (resumeAdmitted (finishActiveRequest
        (admitMany (C : Int) controllerId (List.range (C + 1)) emptyEngine).1
        controllerId).1 controllerId).activeRequests controllerId = some (C : Int)
    ∧ (∀ (st : CmdEngineState) (w : Nat) (rest : List Nat),
        st.waiting controllerId = w :: rest →
        (finishActiveRequest st controllerId).2 = some w
        ∧ (finishActiveRequest st controllerId).1.waiting controllerId = rest)
    ∧ (∀ cid2, cid2 ≠ controllerId →
        (admitMany (C : Int) controllerId (List.range (C + 1)) emptyEngine).1.activeRequests
          cid2 = none
        ∧ (admitMany (C : Int) controllerId (List.range (C + 1)) emptyEngine).1.waiting
          cid2 = []) := by
  obtain ⟨D, rfl⟩ : ∃ D, C = D + 1 := ⟨C - 1, by omega⟩
  have hstep0 : admitStep emptyEngine ((D + 1 : Nat) : Int) controllerId 0
      = (incActive (initActive emptyEngine controllerId) controllerId, true) := by
    simp [admitStep, admitCheck, emptyEngine]
  set st1 := incActive (initActive emptyEngine controllerId) controllerId with hst1
  have hact1 : st1.activeRequests controllerId = some 1 := by
    simp [hst1, incActive, initActive, emptyEngine]
  have hwait1 : ∀ cid2, st1.waiting cid2 = [] := by
    intro cid2
    simp [hst1, incActive, initActive, emptyEngine]
  have hother1 : ∀ cid2, cid2 ≠ controllerId → st1.activeRequests cid2 = none := by
    intro cid2 hne
    simp [hst1, incActive, initActive, emptyEngine, hne]
  obtain ⟨hRes, hAct, hWait, hOther⟩ :=
    admitMany_all_proceed ((List.range D).map Nat.succ) ((D + 1 : Nat) : Int)
      controllerId st1 1 hact1
      (by simp only [List.length_map, List.length_range]; push_cast; omega)
  have hfirst : admitMany ((D + 1 : Nat) : Int) controllerId (List.range (D + 1)) emptyEngine
      = ((admitMany ((D + 1 : Nat) : Int) controllerId
            ((List.range D).map Nat.succ) st1).1,
         (0, true) :: (admitMany ((D + 1 : Nat) : Int) controllerId
            ((List.range D).map Nat.succ) st1).2) := by
    rw [List.range_succ_eq_map]
    simp only [admitMany, hstep0]
  set stC := (admitMany ((D + 1 : Nat) : Int) controllerId
      ((List.range D).map Nat.succ) st1).1 with hstC
  have hfirst1 : (admitMany ((D + 1 : Nat) : Int) controllerId
      (List.range (D + 1)) emptyEngine).1 = stC := by
    rw [hfirst]
  have hResC : (admitMany ((D + 1 : Nat) : Int) controllerId
      (List.range (D + 1)) emptyEngine).2
      = (List.range (D + 1)).map (fun c => (c, true)) := by
    rw [hfirst]
    simp only [hRes]
    rw [List.range_succ_eq_map]
    simp [List.map_map, Function.comp_def]
  have hActC : stC.activeRequests controllerId = some ((D + 1 : Nat) : Int) := by
    rw [hAct]
    congr 1
    simp
    ring
  have hWaitC : stC.waiting controllerId = [] := by
    rw [hWait, hwait1]
  have hcheckC : admitCheck stC ((D + 1 : Nat) : Int) controllerId = true := by
    simp [admitCheck, hActC]
  have hinitC : initActive stC controllerId = stC := by
    simp [initActive, hActC]
  have hsingle : admitMany ((D + 1 : Nat) : Int) controllerId [D + 1] stC
      = (pushWaiting stC controllerId (D + 1), [(D + 1, false)]) := by
    simp [admitMany, admitStep, admitCheck, initActive, hActC]
  have hmain : admitMany ((D + 1 : Nat) : Int) controllerId
      (List.range (D + 1 + 1)) emptyEngine
      = (pushWaiting stC controllerId (D + 1),
         (List.range (D + 1)).map (fun c => (c, true)) ++ [(D + 1, false)]) := by
    have happ := admitMany_append ((D + 1 : Nat) : Int) controllerId
      (List.range (D + 1)) [D + 1] emptyEngine
    rw [hfirst1, hsingle, hResC, ← List.range_succ] at happ
    exact happ
  have hpushAct : (pushWaiting stC controllerId (D + 1)).activeRequests controllerId
      = some ((D + 1 : Nat) : Int) := hActC
  have hpushWait : (pushWaiting stC controllerId (D + 1)).waiting controllerId
      = [D + 1] := by
    simp [pushWaiting, hWaitC]
  obtain ⟨hpop1, hpop2, hpop3⟩ :=
    finishActiveRequest_pop (pushWaiting stC controllerId (D + 1)) controllerId
      (D + 1) [] hpushWait
  refine ⟨?_, ?_, ?_, ?_, ?_, ?_, ?_, ?_⟩
  · rw [hmain]
  · rw [hmain]
    exact hpushAct
  · rw [hmain]
    exact hpushWait
  · rw [hmain]
    exact hpop1
  · rw [hmain]
    exact hpop2
  · rw [hmain]
    rw [resumeAdmitted, incActive_self, hpop3, hpushAct]
    simp only [Option.getD_some]
    congr 1
    omega
  · intro st w rest h
    exact ⟨(finishActiveRequest_pop st controllerId w rest h).1,
           (finishActiveRequest_pop st controllerId w rest h).2.1⟩
  · intro cid2 hne
    rw [hmain]
    refine ⟨?_, ?_⟩
    · show (pushWaiting stC controllerId (D + 1)).activeRequests cid2 = none
      show stC.activeRequests cid2 = none
      rw [(hOther cid2 hne).1]
      exact hother1 cid2 hne
    · show (pushWaiting stC controllerId (D + 1)).waiting cid2 = []
      simp only [pushWaiting]
      rw [if_neg hne]
      rw [(hOther cid2 hne).2, hwait1]

/-- Witness for claim C3 at the default ceiling `C = 8`, controller 0. -/
theorem admission_ceiling_fifo_witness :
    (admitMany (8 : Int) 0 (List.range 9) emptyEngine).2
        = (List.range 8).map (fun c => (c, true)) ++ [(8, false)]
    ∧ (admitMany (8 : Int) 0 (List.range 9) emptyEngine).1.activeRequests 0 = some 8
    ∧ (admitMany (8 : Int) 0 (List.range 9) emptyEngine).1.waiting 0 = [8]
    ∧ (finishActiveRequest (admitMany (8 : Int) 0 (List.range 9) emptyEngine).1 0).2 = some 8
    ∧ (finishActiveRequest
        (admitMany (8 : Int) 0 (List.range 9) emptyEngine).1 0).1.waiting 0 = []
    ∧ (resumeAdmitted (finishActiveRequest
        (admitMany (8 : Int) 0 (List.range 9) emptyEngine).1 0).1 0).activeRequests 0 = some 8
    ∧ (∀ (st : CmdEngineState) (w : Nat) (rest : List Nat),
        st.waiting 0 = w :: rest →
        (finishActiveRequest st 0).2 = some w
        ∧ (finishActiveRequest st 0).1.waiting 0 = rest)
    ∧ (∀ cid2, cid2 ≠ 0 →
        (admitMany (8 : Int) 0 (List.range 9) emptyEngine).1.activeRequests cid2 = none
        ∧ (admitMany (8 : Int) 0 (List.range 9) emptyEngine).1.waiting cid2 = []) :=
  admission_ceiling_fifo 8 (by norm_num) 0

/-- Claim C5 counterexample: decoding byte 4 (a bit outside the four flag
positions) and re-encoding yields 0, not 4, so the round trip does not hold
for all 256 byte values. -/
theorem eventMode_roundtrip_counterexample :
    ZenEventMode.bitmask (ZenEventMode.fromByte 4) = 0
    ∧ ZenEventMode.bitmask (ZenEventMode.fromByte 4) ≠ 4 := by decide

section RetryScenario

/-- While below the retry ceiling, each timer expiry only bumps the retry
counter and appends one more copy of the identical frame to the transmit
log; nothing else changes. -/
theorem iterExpire_below (maxRetries seq controllerId : Nat) (packet : List Nat)
    (active : Int) (n : Nat) (hn : n < maxRetries) :
    iterExpire maxRetries (freshRetryCtx seq controllerId packet active) n
      = { freshRetryCtx seq controllerId packet active with
          retries := n
          sent := List.replicate (n + 1) packet } := by
  induction n with
  | zero => simp [iterExpire, freshRetryCtx]
  | succ n ih =>
    have hcond : ¬ maxRetries ≤ n + 1 := by omega
    simp only [iterExpire]
    rw [ih (by omega)]
    simp [timeoutExpire, hcond, List.replicate_succ', freshRetryCtx]

end RetryScenario

/-- Claim C2 (amended): on each timer expiry the engine increments the retry
counter; while the counter is below the ceiling it retransmits the
byte-identical frame (same sequence number, same payload) and rearms the
timer — at most `ceiling - 1` retransmissions — and the `ceiling`-th timeout
(not the `(ceiling+1)`-th) rejects the caller with `ZenTimeoutError` without
sending again, clears the tracker entry and releases the admission slot, so
that a subsequent request to the same controller is admitted immediately. -/
theorem retry_identical_until_ceiling (maxRetries seq controllerId : Nat)
    (packet : List Nat) (active : Int) (hmr : 1 ≤ maxRetries) :
    (∀ n, n < maxRetries →
      (iterExpire maxRetries (freshRetryCtx seq controllerId packet active) n).sent
          = List.replicate (n + 1) packet
      ∧ (iterExpire maxRetries (freshRetryCtx seq controllerId packet active)
          n).rejectedTimeout = false
      ∧ (iterExpire maxRetries (freshRetryCtx seq controllerId packet active)
          n).engine.requestsBySeq seq = some ⟨0, controllerId, true⟩
      ∧ (iterExpire maxRetries (freshRetryCtx seq controllerId packet active)
          n).timerArmed = true)
    ∧ (iterExpire maxRetries (freshRetryCtx seq controllerId packet active)
        maxRetries).rejectedTimeout = true
    ∧ (iterExpire maxRetries (freshRetryCtx seq controllerId packet active)
        maxRetries).sent = List.replicate maxRetries packet
    ∧ (iterExpire maxRetries (freshRetryCtx seq controllerId packet active)
        maxRetries).engine.requestsBySeq seq = none
    ∧ (iterExpire maxRetries (freshRetryCtx seq controllerId packet active)
        maxRetries).timerArmed = false
    ∧ (iterExpire maxRetries (freshRetryCtx seq controllerId packet active)
        maxRetries).engine.activeRequests controllerId = some (active - 1)
    ∧ (admitStep (iterExpire maxRetries (freshRetryCtx seq controllerId packet active)
        maxRetries).engine active controllerId 99).2 = true := by
  obtain ⟨m, rfl⟩ : ∃ m, maxRetries = m + 1 := ⟨maxRetries - 1, by omega⟩
  have hbelow := iterExpire_below (m + 1) seq controllerId packet active
  have hfinal : iterExpire (m + 1) (freshRetryCtx seq controllerId packet active) (m + 1)
      = { freshRetryCtx seq controllerId packet active with
          retries := m + 1
          sent := List.replicate (m + 1) packet
          engine := (finishActiveRequest
            { (freshRetryCtx seq controllerId packet active).engine with
              requestsBySeq := fun s => if s = seq then none
                else (freshRetryCtx seq controllerId packet active).engine.requestsBySeq s }
            controllerId).1
          timerArmed := false
          rejectedTimeout := true } := by
    have hstep : iterExpire (m + 1) (freshRetryCtx seq controllerId packet active) (m + 1)
        = timeoutExpire (m + 1)
            (iterExpire (m + 1) (freshRetryCtx seq controllerId packet active) m) := rfl
    rw [hstep, hbelow m (by omega)]
    simp [timeoutExpire, freshRetryCtx]
  have hactiveDel :
      ({ (freshRetryCtx seq controllerId packet active).engine with
          requestsBySeq := fun s => if s = seq then none
            else (freshRetryCtx seq controllerId packet active).engine.requestsBySeq s
          : CmdEngineState }).activeRequests controllerId = some active := by
    simp [freshRetryCtx]
  refine ⟨?_, ?_, ?_, ?_, ?_, ?_, ?_⟩
  · intro n hn
    rw [hbelow n hn]
    refine ⟨rfl, rfl, ?_, rfl⟩
    simp [freshRetryCtx]
  · rw [hfinal]
  · rw [hfinal]
  · rw [hfinal]
    show ((finishActiveRequest _ controllerId).1).requestsBySeq seq = none
    rw [finishActiveRequest_requestsBySeq]
    simp
  · rw [hfinal]
  · rw [hfinal]
    show ((finishActiveRequest _ controllerId).1).activeRequests controllerId = some (active - 1)
    rw [finishActiveRequest_active, hactiveDel]
    simp
  · rw [hfinal]
    have hrel : ((finishActiveRequest
        { (freshRetryCtx seq controllerId packet active).engine with
          requestsBySeq := fun s => if s = seq then none
            else (freshRetryCtx seq controllerId packet active).engine.requestsBySeq s }
        controllerId).1).activeRequests controllerId = some (active - 1) := by
      rw [finishActiveRequest_active, hactiveDel]
      simp
    show (admitStep _ active controllerId 99).2 = true
    simp [admitStep, admitCheck, hrel, show ¬ active ≤ active - 1 by omega]

/-- Witness for claim C2's amended theorem at the default retry ceiling 5. -/
theorem retry_identical_until_ceiling_witness :
    (∀ n, n < 5 →
      (iterExpire 5 (freshRetryCtx 2 3 [4, 2, 161, 0] 8) n).sent
          = List.replicate (n + 1) [4, 2, 161, 0]
      ∧ (iterExpire 5 (freshRetryCtx 2 3 [4, 2, 161, 0] 8) n).rejectedTimeout = false
      ∧ (iterExpire 5 (freshRetryCtx 2 3 [4, 2, 161, 0] 8) n).engine.requestsBySeq 2
          = some ⟨0, 3, true⟩
      ∧ (iterExpire 5 (freshRetryCtx 2 3 [4, 2, 161, 0] 8) n).timerArmed = true)
    ∧ (iterExpire 5 (freshRetryCtx 2 3 [4, 2, 161, 0] 8) 5).rejectedTimeout = true
    ∧ (iterExpire 5 (freshRetryCtx 2 3 [4, 2, 161, 0] 8) 5).sent
        = List.replicate 5 [4, 2, 161, 0]
    ∧ (iterExpire 5 (freshRetryCtx 2 3 [4, 2, 161, 0] 8) 5).engine.requestsBySeq 2 = none
    ∧ (iterExpire 5 (freshRetryCtx 2 3 [4, 2, 161, 0] 8) 5).timerArmed = false
    ∧ (iterExpire 5 (freshRetryCtx 2 3 [4, 2, 161, 0] 8) 5).engine.activeRequests 3 = some 7
    ∧ (admitStep (iterExpire 5 (freshRetryCtx 2 3 [4, 2, 161, 0] 8) 5).engine 8 3 99).2
        = true :=
  retry_identical_until_ceiling 5 2 3 [4, 2, 161, 0] 8 (by norm_num)

/-- Claim C2 counterexample: with the default retry ceiling 5 the 5th timer
expiry already rejects the request — after five timeouts the frame has been
transmitted only 5 times (the initial send plus 4 retransmissions), never 6,
and the rejection happened on the 5th expiry (after four expiries the
request was still pending), so there is no "(ceiling+1)th timeout". -/
theorem retry_ceiling_counterexample :
    (iterExpire 5 (freshRetryCtx 0 0 [4, 0, 161, 0] 1) 5).rejectedTimeout = true
    ∧ (iterExpire 5 (freshRetryCtx 0 0 [4, 0, 161, 0] 1) 5).sent.length = 5
    ∧ (iterExpire 5 (freshRetryCtx 0 0 [4, 0, 161, 0] 1) 5).sent.length ≠ 6
    ∧ (iterExpire 5 (freshRetryCtx 0 0 [4, 0, 161, 0] 1) 4).rejectedTimeout = false
    ∧ (iterExpire 5 (freshRetryCtx 0 0 [4, 0, 161, 0] 1) 4).sent.length = 5 := by
  refine ⟨rfl, rfl, by decide, rfl, rfl⟩

set_option maxRecDepth 4096 in
/-- Claim C5 (amended): for every byte `b`, decoding the event-mode byte and
re-encoding returns `b` with the four unused bit positions (0x3C) cleared,
i.e. `b &&& 0xC3`; in particular the round trip returns `b` itself exactly
when `b` only uses the four flag bits 0x01, 0x02, 0x40, 0x80, and the
inverted multicast bit 0x80 is preserved in both directions. -/
theorem eventMode_roundtrip_masked :
    ∀ b : Fin 256, ZenEventMode.bitmask (ZenEventMode.fromByte b.val) = b.val &&& 0xC3 := by
  decide

/-- Claim C9: an ERROR (0xA3) response with a nonempty payload fails the
exchange with the error named by the first payload byte through the
`ZenErrorCode` table, an unmapped byte fails with the unknown-error-code
error carrying the raw byte, and an empty ERROR payload resolves
successfully with a null result — in both the basic-frame and dynamic-frame
decoders, for every requested return type. -/
theorem error_response_decoding (rt : RetType) (drt : DynRetType) (b : Nat) (rest : List Nat) :
    decodeBasicResponse rt 0xA3 (b :: rest)
        = .error (match lookupErrorName b with
                  | some name => .namedError name
                  | none => .unknownErrorCode b)
    ∧ decodeDynamicResponse drt 0xA3 (b :: rest)
        = .error (match lookupErrorName b with
                  | some name => .namedError name
                  | none => .unknownErrorCode b)
    ∧ decodeBasicResponse rt 0xA3 [] = .ok .vNull
    ∧ decodeDynamicResponse drt 0xA3 [] = .ok .vNull := by
  refine ⟨?_, ?_, ?_, ?_⟩ <;>
    cases h : lookupErrorName b <;>
      simp [decodeBasicResponse, decodeDynamicResponse, h]

/-- Claim C6 (code bug): for the absolute-input event carrying payload
`[0, 1, 0]` the handler dispatches value 0, because the source expression
`payload[1] & 0xff << 8` parses as `payload[1] & (0xff << 8)` and erases the
high byte; the claimed big-endian combination of payload bytes 1-2 is 256. -/
theorem absoluteInput_precedence_bug :
    handleEventPacket allCallbacks [⟨"192.168.1.2", 5108, 7, some [1, 2, 3, 4, 5, 6]⟩]
        (mkEventPacket [0x5a, 0x43, 1, 2, 3, 4, 5, 6, 0, 64, 0x02, 3, 0, 1, 0])
      = .ok (.absoluteInput ⟨⟨7, .ECD, 0⟩, .PUSH_BUTTON, 0⟩ 0)
    ∧ ((1 &&& 0xff) <<< 8) ||| (0 &&& 0xff) = 256
    ∧ (0 : Nat) ≠ 256 := by
  refine ⟨rfl, by decide, by decide⟩

/-- Claim C7 (code bug): a colour-change event for target 130 (the 127-143
alias range) with a registered callback and a well-formed Tc colour payload
throws the group-range error out of the handler — the source constructs the
group address with the raw target, not `target - 128`, so the callback is
never invoked and even the warning is never reached. -/
theorem colourChange_alias_range_throws :
    handleEventPacket allCallbacks [⟨"192.168.1.2", 5108, 7, some [1, 2, 3, 4, 5, 6]⟩]
        (mkEventPacket
          [0x5a, 0x43, 1, 2, 3, 4, 5, 6, 0, 130, 0x08, 7,
           0x20, 0x1d, 0x4c, 0xff, 0xff, 0xff, 0xff])
      = .error (.addressRange .GROUP 130)
    ∧ ZenColour.fromBytes [0x20, 0x1d, 0x4c, 0xff, 0xff, 0xff, 0xff]
      = .ok { type := .TC, kelvin := some 7500 } := by
  refine ⟨rfl, rfl⟩

/-- Claim C8 (code bug): a checksum-valid colour-change event datagram whose
colour payload is undecodable (type byte 0x99) makes `_handleEventPacket`
throw — `ZenColour.fromBytes` raises and no try/catch guards the event
path — contradicting the log-and-drop guarantee. -/
theorem eventHandler_throws_on_undecodable_colour :
    handleEventPacket allCallbacks [⟨"192.168.1.2", 5108, 7, some [1, 2, 3, 4, 5, 6]⟩]
        (mkEventPacket [0x5a, 0x43, 1, 2, 3, 4, 5, 6, 0, 0, 0x08, 1, 0x99])
      = .error (.colourUnsupportedType 0x99) := rfl

/-- Claim C4: an inbound command-path datagram that matches a pending
sequence number but fails the checksum or the declared-length check rejects
the caller with a response error (never resolving it), removes the pending
entry, cancels its timer and releases the admission slot; with the entry
gone and the timer cancelled no retransmission can occur for the request. -/
theorem malformed_response_rejects_and_releases (st : CmdEngineState) (msg : List Nat)
    (req : PendingReq) (hlen : 4 ≤ msg.length)
    (hseq : st.requestsBySeq (msg.getD 1 0) = some req)
    (hbad : msg.getD (msg.length - 1) 0 ≠ checksum (msg.take (msg.length - 1))
            ∨ msg.length ≠ 4 + msg.getD 2 0) :
    (∃ reason, (handleMessage st msg).result = .rejected req.callerId reason)
    ∧ (∀ c code data, (handleMessage st msg).result ≠ .resolved c code data)
    ∧ (handleMessage st msg).state.requestsBySeq (msg.getD 1 0) = none
    ∧ (handleMessage st msg).timerCleared = req.timerArmed
    ∧ (handleMessage st msg).state.activeRequests req.controllerId
        = some ((st.activeRequests req.controllerId).getD 0 - 1) := by
  have hlen' : ¬ msg.length < 4 := by omega
  unfold handleMessage
  rw [if_neg hlen']
  simp only [hseq]
  by_cases hc : msg.getD (msg.length - 1) 0 = checksum (msg.take (msg.length - 1))
  · have hlenBad : msg.length ≠ 4 + msg.getD 2 0 := by tauto
    rw [if_neg (by simpa using hc), if_pos hlenBad]
    refine ⟨⟨.lengthMismatch, rfl⟩, ?_, ?_, rfl, ?_⟩
    · intro c code data h
      cases h
    · rw [finishActiveRequest_requestsBySeq]
      simp
    · rw [finishActiveRequest_active]
  · rw [if_pos (by simpa using hc)]
    refine ⟨⟨.invalidChecksum, rfl⟩, ?_, ?_, rfl, ?_⟩
    · intro c code data h
      cases h
    · rw [finishActiveRequest_requestsBySeq]
      simp
    · rw [finishActiveRequest_active]

/-- A concrete engine state with one pending request (caller 11,
controller 3) registered under sequence number 2. -/
def statePending2 : CmdEngineState :=
  { emptyEngine with
    requestsBySeq := fun s => if s = 2 then some ⟨11, 3, true⟩ else none
    activeRequests := fun c => if c = 3 then some 1 else none }

/-- Witness for claim C4 at a concrete bad-checksum datagram. -/
theorem malformed_response_witness :
    (∃ reason, (handleMessage statePending2 [0xA1, 2, 1, 7, 99]).result = .rejected 11 reason)
    ∧ (∀ c code data,
        (handleMessage statePending2 [0xA1, 2, 1, 7, 99]).result ≠ .resolved c code data)
    ∧ (handleMessage statePending2 [0xA1, 2, 1, 7, 99]).state.requestsBySeq 2 = none
    ∧ (handleMessage statePending2 [0xA1, 2, 1, 7, 99]).timerCleared = true
    ∧ (handleMessage statePending2 [0xA1, 2, 1, 7, 99]).state.activeRequests 3 = some 0 :=
  malformed_response_rejects_and_releases statePending2 [0xA1, 2, 1, 7, 99]
    ⟨11, 3, true⟩ (by decide) rfl (Or.inl (by decide))

/-- Claim C10: an inbound command-path datagram of length at least 4 whose
sequence byte matches no pending request is dropped with a warning and no
observable state change: the pending table, the per-controller counters and
the waiting queues are all unchanged, no timer is cleared, and no caller is
resolved, rejected or woken. -/
theorem unknownSeq_response_no_state_change (st : CmdEngineState) (msg : List Nat)
    (hlen : 4 ≤ msg.length) (hseq : st.requestsBySeq (msg.getD 1 0) = none) :
    handleMessage st msg = ⟨st, .unknownSeq, false, none⟩ := by
  have hlen' : ¬ msg.length < 4 := by omega
  unfold handleMessage
  rw [if_neg hlen']
  simp only [hseq]

/-- Witness for claim C10 at a concrete datagram against the empty engine. -/
theorem unknownSeq_response_witness :
    handleMessage emptyEngine [0xA1, 5, 1, 7, 99] = ⟨emptyEngine, .unknownSeq, false, none⟩ :=
  unknownSeq_response_no_state_change emptyEngine [0xA1, 5, 1, 7, 99] (by decide) rfl

end ZenTPI
